import Mathlib

/-!
# Verification of the iHubPT Agent Session Controller (TestAgentComponent)

Shallow embedding of `src/frontend/src/app/components/test-agent/test-agent.component.ts`
together with the RxJS combinators it uses (`interval`, `takeWhile`, `switchMap`,
`Subscription.unsubscribe`).

The component runs on the single-threaded JavaScript event loop: every subscribe
callback runs to completion atomically.  We therefore model the system as a state
machine whose atomic events are the component's public methods (user actions) and
the asynchronous callbacks (HTTP responses / errors, interval ticks).  Each
asynchronous gateway request obtains a fresh tag when it is dispatched; the
corresponding response event carries that tag, and the RxJS delivery rules
(a response is dropped once its subscription has been unsubscribed, an inner
observable cancelled by `switchMap` never delivers, an `error` notification
terminates its subscription) become guards on the handler steps.

Timestamps (`Date` / ISO strings) are modelled as `Nat` (epoch milliseconds);
`new Date(iso)` and `Date.toISOString()` are inverse coercions and are modelled
as the identity.
-/

namespace IHubPT

/-- `AgentStatus` enum, from `src/frontend/src/app/models/agent.ts`. -/
inductive AgentStatus where
  | idle
  | running
  | paused
  | completed
  | failed
  | error
deriving DecidableEq, Repr

/-- One entry of `Agent.context.chat_history`
(`{role, content, timestamp, name?}`), from `models/agent.ts`. -/
structure ChatMessage where
  role : String
  content : String
  timestamp : Nat
  name : Option String := none
deriving DecidableEq, Repr

/-- `Agent.context` (`{ chat_history?: ChatMessage[] }`), from `models/agent.ts`. -/
structure AgentContext where
  chat_history : Option (List ChatMessage)
deriving DecidableEq, Repr

/-- The `Agent` interface from `models/agent.ts`. -/
structure Agent where
  id : String
  name : String
  description : String
  prompt : String
  tools : List String
  hitl_enabled : Bool
  status : AgentStatus
  created_at : Nat
  updated_at : Nat
  context : Option AgentContext
deriving DecidableEq, Repr

/-- An entry of the component's `messages` array
(`{role: 'user' | 'assistant', content: string, timestamp: Date}`). -/
structure UiMessage where
  role : String
  content : String
  timestamp : Nat
deriving DecidableEq, Repr

/-- A request dispatched to the remote gateway (`AgentService` HTTP call). -/
inductive GatewayCall where
  | getAgent (id : String)
  | chat (id : String) (text : String)
  | start (id : String)
  | stop (id : String)
deriving DecidableEq, Repr

/-- The kind of a lifecycle command in flight. -/
inductive CmdKind where
  | start
  | stop
deriving DecidableEq, Repr

/-- A live polling subscription created by `startStatusPolling`:
`interval(5000).pipe(takeWhile(...), switchMap(...)).subscribe(...)`.
`token` identifies the subscription, `agentId` is the captured argument,
`outerDone` records that the `takeWhile` predicate has failed (the source
completed), and `inner` is the tag of the in-flight `getAgent` request
dispatched by `switchMap`, if any (a new tick replaces it, cancelling the
previous inner request). -/
structure PollSub where
  token : Nat
  agentId : String
  outerDone : Bool
  inner : Option Nat
deriving DecidableEq, Repr

/-- The component state, plus the bookkeeping needed to model asynchrony:
pending request tags, live subscriptions, and observable logs (dispatched
gateway calls, snackbar notifications). -/
structure St where
  selectedAgent : Option Agent
  messages : List UiMessage
  newMessage : String
  isLoading : Bool
  /-- the `statusSubscription` field (token of the subscription it holds). -/
  statusSubscription : Option Nat
  /-- live (not unsubscribed, not errored) polling subscriptions. -/
  subs : List PollSub
  /-- in-flight `getAgent` requests issued by `selectAgent` (tag, requested id). -/
  pendingSelects : List (Nat × String)
  /-- in-flight `sendMessage` chat requests (tags). -/
  pendingChats : List Nat
  /-- in-flight lifecycle commands from `startAgent` / `stopAgent` (tag, kind). -/
  pendingCommands : List (Nat × CmdKind)
  /-- fresh-tag counter for requests and subscription tokens. -/
  nextTag : Nat
  /-- every gateway request dispatched so far, in order. -/
  callLog : List GatewayCall
  /-- snackbar messages shown so far, in order. -/
  snackbar : List String
deriving DecidableEq, Repr

/-- Initial component state (fields as initialized in the class body). -/
def initSt : St :=
  { selectedAgent := none
    messages := []
    newMessage := ""
    isLoading := false
    statusSubscription := none
    subs := []
    pendingSelects := []
    pendingChats := []
    pendingCommands := []
    nextTag := 0
    callLog := []
    snackbar := [] }

/-- `stopStatusPolling()` (lines 133–138): if `statusSubscription` is non-null,
unsubscribe it and set the field to null.  Unsubscribing removes the
subscription from the live set; `switchMap`'s teardown also cancels its
in-flight inner request (the whole `PollSub` record disappears). -/
def stopStatusPolling (s : St) : St :=
  match s.statusSubscription with
  | none => s
  | some tok =>
      { s with subs := s.subs.filter (fun p => p.token ≠ tok)
               statusSubscription := none }

/-- `startStatusPolling(agentId)` (lines 114–131): stop the previous
subscription, then subscribe `interval(5000).pipe(takeWhile, switchMap)`,
storing the new subscription in `statusSubscription`. -/
def startStatusPolling (s : St) (agentId : String) : St :=
  let s := stopStatusPolling s
  { s with statusSubscription := some s.nextTag
           subs := s.subs ++ [{ token := s.nextTag, agentId := agentId,
                                outerDone := false, inner := none }]
           nextTag := s.nextTag + 1 }

/-- `selectAgent(agentId)` (lines 92–112), the synchronous part: dispatch
`agentService.getAgent(agentId)` and subscribe to it. -/
def selectAgent (s : St) (agentId : String) : St :=
  { s with callLog := s.callLog ++ [GatewayCall.getAgent agentId]
           pendingSelects := s.pendingSelects ++ [(s.nextTag, agentId)]
           nextTag := s.nextTag + 1 }

/-- Lines 96–104: map `agent.context?.chat_history` to the `messages` array
(`[]` when context or chat_history is absent). -/
def chatHistoryToMessages : Option AgentContext → List UiMessage
  | none => []
  | some c =>
      match c.chat_history with
      | none => []
      | some h => h.map (fun m => { role := m.role, content := m.content,
                                    timestamp := m.timestamp })

/-- The `next` callback of `selectAgent`'s subscription (lines 94–106):
set `selectedAgent`, rebuild `messages` from the returned agent's
chat history, and start polling for `agent.id`.  Delivered only while the
request is still pending (each HTTP observable emits exactly once). -/
def selectAgentNext (s : St) (tag : Nat) (agent : Agent) : St :=
  if s.pendingSelects.any (fun p => p.1 == tag) then
    let s := { s with pendingSelects := s.pendingSelects.filter (fun p => p.1 ≠ tag)
                      selectedAgent := some agent
                      messages := chatHistoryToMessages agent.context }
    startStatusPolling s agent.id
  else s

/-- The `error` callback of `selectAgent`'s subscription (lines 107–110):
log and show a snackbar; nothing else changes. -/
def selectAgentError (s : St) (tag : Nat) : St :=
  if s.pendingSelects.any (fun p => p.1 == tag) then
    { s with pendingSelects := s.pendingSelects.filter (fun p => p.1 ≠ tag)
             snackbar := s.snackbar ++ ["Failed to load agent details"] }
  else s

/-- The id of the currently selected agent (`this.selectedAgent?.id`). -/
def selectedId (s : St) : Option String :=
  s.selectedAgent.map (fun a => a.id)

/-- Update the subscription with token `tok` in place (list analogue of
mutating one subscription object). -/
def updateSub (subs : List PollSub) (tok : Nat) (f : PollSub → PollSub) : List PollSub :=
  subs.map (fun q => if q.token == tok then f q else q)

/-- An `interval(5000)` tick of subscription `tok` (lines 116–120).
`takeWhile(() => this.selectedAgent?.id === agentId)`: if the predicate
fails, the source completes (no further ticks; an in-flight inner request
of `switchMap` still runs to completion).  Otherwise `switchMap` dispatches
`agentService.getAgent(agentId)`, cancelling any previous inner request. -/
def pollTick (s : St) (tok : Nat) : St :=
  match s.subs.find? (fun p => p.token == tok) with
  | none => s
  | some p =>
      if p.outerDone then s
      else if selectedId s == some p.agentId then
        { s with subs := updateSub s.subs tok (fun q => { q with inner := some s.nextTag })
                 callLog := s.callLog ++ [GatewayCall.getAgent p.agentId]
                 nextTag := s.nextTag + 1 }
      else
        { s with subs := updateSub s.subs tok (fun q => { q with outerDone := true }) }

/-- The `next` callback of the polling subscription (lines 122–126):
`if (this.selectedAgent) { this.selectedAgent = agent; }`.  Delivered only
if the subscription is still live and `innerTag` is still its current inner
request (an inner cancelled by `switchMap` or by unsubscription never
delivers). -/
def pollNext (s : St) (tok innerTag : Nat) (agent : Agent) : St :=
  match s.subs.find? (fun p => p.token == tok) with
  | none => s
  | some p =>
      if p.inner == some innerTag then
        let s := { s with subs := updateSub s.subs tok (fun q => { q with inner := none }) }
        match s.selectedAgent with
        | some _ => { s with selectedAgent := some agent }
        | none => s
      else s

/-- The `error` callback of the polling subscription (lines 127–129):
`console.error` only — but an RxJS `error` notification is terminal, so the
subscription is closed and no further ticks or deliveries occur on it. -/
def pollError (s : St) (tok innerTag : Nat) : St :=
  match s.subs.find? (fun p => p.token == tok) with
  | none => s
  | some p =>
      if p.inner == some innerTag then
        { s with subs := s.subs.filter (fun q => q.token ≠ tok) }
      else s

/-- `ngOnDestroy()` (lines 76–78): just `stopStatusPolling()`. -/
def ngOnDestroy (s : St) : St :=
  stopStatusPolling s

/-- JavaScript `String.prototype.trim()`: remove leading and trailing
whitespace.  (Embedded structurally so that it is kernel-computable;
`String.trim` from the Lean library is extensionally the same but is defined
through `Substring` helpers that do not reduce definitionally.) -/
def jsTrim (s : String) : String :=
  let cs := s.toList.dropWhile Char.isWhitespace
  String.mk ((cs.reverse.dropWhile Char.isWhitespace).reverse)

/-- `canSendMessage()` (lines 223–227). -/
def canSendMessage (s : St) : Bool :=
  match s.selectedAgent with
  | none => false
  | some a => a.status == AgentStatus.running || a.status == AgentStatus.completed

/-- Lines 182–193 of `sendMessage`: ensure `context` and `context.chat_history`
exist on the selected agent, then push the user message onto
`context.chat_history` (an in-place mutation of the held snapshot). -/
def pushUserToContext (a : Agent) (message : String) (timestamp : Nat) : Agent :=
  let ctx := match a.context with
    | some c => c
    | none => { chat_history := none }
  let hist := match ctx.chat_history with
    | some h => h
    | none => []
  let newHist := hist ++ [{ role := "user", content := message, timestamp := timestamp }]
  { a with context := some { chat_history := some newHist } }

/-- `sendMessage()` (lines 168–221), the synchronous part: return early when no
agent is selected or the trimmed input is empty; otherwise push the optimistic
user message, clear the input, set `isLoading`, mutate the selected agent's
`context.chat_history`, and dispatch `agentService.sendMessage(id, message)`. -/
def sendMessage (s : St) (timestamp : Nat) : St :=
  match s.selectedAgent with
  | none => s
  | some agent =>
      if jsTrim s.newMessage == "" then s
      else
        let message := jsTrim s.newMessage
        { s with
          messages := s.messages ++
            [{ role := "user", content := message, timestamp := timestamp }]
          newMessage := ""
          isLoading := true
          selectedAgent := some (pushUserToContext agent message timestamp)
          callLog := s.callLog ++ [GatewayCall.chat agent.id message]
          pendingChats := s.pendingChats ++ [s.nextTag]
          nextTag := s.nextTag + 1 }

/-- The `next` callback of `sendMessage`'s subscription (lines 196–214):
push the assistant reply onto `messages`, and — when the selected agent
still has a `context.chat_history` — also onto that history; clear
`isLoading`. -/
def sendMessageNext (s : St) (tag : Nat) (content : String) (responseTimestamp : Nat) : St :=
  if s.pendingChats.any (fun t => t == tag) then
    let uiReply : UiMessage :=
      { role := "assistant", content := content, timestamp := responseTimestamp }
    let histReply : ChatMessage :=
      { role := "assistant", content := content, timestamp := responseTimestamp }
    let s := { s with pendingChats := s.pendingChats.filter (fun t => t ≠ tag)
                      messages := s.messages ++ [uiReply] }
    let s := match s.selectedAgent with
      | some a =>
          match a.context with
          | some c =>
              match c.chat_history with
              | some h =>
                  let newHist := h ++ [histReply]
                  let a2 : Agent := { a with context := some { chat_history := some newHist } }
                  { s with selectedAgent := some a2 }
              | none => s
          | none => s
      | none => s
    { s with isLoading := false }
  else s

/-- The `error` callback of `sendMessage`'s subscription (lines 215–219). -/
def sendMessageError (s : St) (tag : Nat) : St :=
  if s.pendingChats.any (fun t => t == tag) then
    { s with pendingChats := s.pendingChats.filter (fun t => t ≠ tag)
             snackbar := s.snackbar ++ ["Failed to send message"]
             isLoading := false }
  else s

/-- `startAgent()` (lines 140–152), the synchronous part: no-op without a
selected agent; otherwise dispatch `agentService.startAgent(id)`. -/
def startAgent (s : St) : St :=
  match s.selectedAgent with
  | none => s
  | some agent =>
      { s with callLog := s.callLog ++ [GatewayCall.start agent.id]
               pendingCommands := s.pendingCommands ++ [(s.nextTag, CmdKind.start)]
               nextTag := s.nextTag + 1 }

/-- `stopAgent()` (lines 154–166), the synchronous part. -/
def stopAgent (s : St) : St :=
  match s.selectedAgent with
  | none => s
  | some agent =>
      { s with callLog := s.callLog ++ [GatewayCall.stop agent.id]
               pendingCommands := s.pendingCommands ++ [(s.nextTag, CmdKind.stop)]
               nextTag := s.nextTag + 1 }

/-- The `next` callback of `startAgent` / `stopAgent` (lines 143–146 / 157–160):
replace `selectedAgent` with the returned snapshot and show a snackbar. -/
def lifecycleNext (s : St) (tag : Nat) (agent : Agent) : St :=
  match s.pendingCommands.find? (fun p => p.1 == tag) with
  | none => s
  | some pc =>
      { s with pendingCommands := s.pendingCommands.filter (fun p => p.1 ≠ tag)
               selectedAgent := some agent
               snackbar := s.snackbar ++ [match pc.2 with
                 | CmdKind.start => "Agent started successfully"
                 | CmdKind.stop => "Agent stopped successfully"] }

/-- The `error` callback of `startAgent` / `stopAgent` (lines 147–150 / 161–164). -/
def lifecycleError (s : St) (tag : Nat) : St :=
  match s.pendingCommands.find? (fun p => p.1 == tag) with
  | none => s
  | some pc =>
      { s with pendingCommands := s.pendingCommands.filter (fun p => p.1 ≠ tag)
               snackbar := s.snackbar ++ [match pc.2 with
                 | CmdKind.start => "Failed to start agent"
                 | CmdKind.stop => "Failed to stop agent"] }

/-- Atomic events of the event loop: user actions (method calls) and
asynchronous callbacks (HTTP responses/errors, interval ticks). -/
inductive Event where
  | selectCall (id : String)
  | selectNext (tag : Nat) (agent : Agent)
  | selectError (tag : Nat)
  | tick (tok : Nat)
  | pollNext (tok innerTag : Nat) (agent : Agent)
  | pollError (tok innerTag : Nat)
  | typeMessage (text : String)
  | send (timestamp : Nat)
  | chatNext (tag : Nat) (content : String) (timestamp : Nat)
  | chatError (tag : Nat)
  | startCall
  | stopCall
  | commandNext (tag : Nat) (agent : Agent)
  | commandError (tag : Nat)
  | destroy

/-- One atomic step of the event loop. -/
def step (s : St) (e : Event) : St :=
  match e with
  | Event.selectCall id => selectAgent s id
  | Event.selectNext tag agent => selectAgentNext s tag agent
  | Event.selectError tag => selectAgentError s tag
  | Event.tick tok => pollTick s tok
  | Event.pollNext tok innerTag agent => pollNext s tok innerTag agent
  | Event.pollError tok innerTag => pollError s tok innerTag
  | Event.typeMessage text => { s with newMessage := text }
  | Event.send timestamp => sendMessage s timestamp
  | Event.chatNext tag content timestamp => sendMessageNext s tag content timestamp
  | Event.chatError tag => sendMessageError s tag
  | Event.startCall => startAgent s
  | Event.stopCall => stopAgent s
  | Event.commandNext tag agent => lifecycleNext s tag agent
  | Event.commandError tag => lifecycleError s tag
  | Event.destroy => ngOnDestroy s

/-- Run a sequence of events. -/
def run (s : St) (tr : List Event) : St :=
  tr.foldl step s

/-- RxJS `interval(period)` emits its k-th value (k = 0, 1, ...) at time
`(k+1) * period`; there is no emission at time 0. -/
def intervalEmitTime (period k : Nat) : Nat := period * (k + 1)

/-- The polling period hard-coded in `startStatusPolling`: `interval(5000)`. -/
def POLL_PERIOD_MS : Nat := 5000

/-- Time of the k-th poll tick after `startStatusPolling` subscribes. -/
def pollTickTime (k : Nat) : Nat := intervalEmitTime POLL_PERIOD_MS k

/-- `tok` is dead in `s`: no live subscription carries it, and the fresh-tag
counter is already past it (so it can never be allocated again). -/
def tokenDead (s : St) (tok : Nat) : Prop :=
  (∀ p ∈ s.subs, p.token ≠ tok) ∧ tok < s.nextTag

/-! ## Concrete inputs used in witnesses and counterexamples -/

/-- A minimal concrete agent. -/
def mkAgent (id : String) (status : AgentStatus) (ctx : Option AgentContext) : Agent :=
  { id := id
    name := id
    description := ""
    prompt := ""
    tools := []
    hitl_enabled := false
    status := status
    created_at := 0
    updated_at := 0
    context := ctx }

def agentA : Agent := mkAgent "A" AgentStatus.idle none

def agentB : Agent := mkAgent "B" AgentStatus.idle none

def agentX : Agent := mkAgent "X" AgentStatus.running none

def agentY : Agent := mkAgent "Y" AgentStatus.running none

/-- Agent `"a1"`, idle, with an empty embedded chat history. -/
def a1idle : Agent := mkAgent "a1" AgentStatus.idle (some { chat_history := some [] })

/-- Agent `"a1"`, running, with an empty embedded chat history. -/
def a1run : Agent := mkAgent "a1" AgentStatus.running (some { chat_history := some [] })

/-- Agent `"a1"`, running, whose authoritative transcript already contains the
user message `"hi"` (timestamp 10). -/
def a1auth : Agent := mkAgent "a1" AgentStatus.running
  (some { chat_history := some [{ role := "user", content := "hi", timestamp := 10 }] })

/-! ## Basic facts about the operations -/

theorem stopStatusPolling_selectedAgent (s : St) :
    (stopStatusPolling s).selectedAgent = s.selectedAgent := by
  unfold stopStatusPolling; split <;> rfl

theorem stopStatusPolling_messages (s : St) :
    (stopStatusPolling s).messages = s.messages := by
  unfold stopStatusPolling; split <;> rfl

theorem stopStatusPolling_nextTag (s : St) :
    (stopStatusPolling s).nextTag = s.nextTag := by
  unfold stopStatusPolling; split <;> rfl

theorem stopStatusPolling_subs_sub (s : St) :
    ∀ q ∈ (stopStatusPolling s).subs, q ∈ s.subs := by
  intro q hq
  unfold stopStatusPolling at hq
  split at hq
  · exact hq
  · exact (List.mem_filter.mp hq).1

theorem startStatusPolling_selectedAgent (s : St) (id : String) :
    (startStatusPolling s id).selectedAgent = s.selectedAgent := by
  simp [startStatusPolling, stopStatusPolling_selectedAgent]

theorem startStatusPolling_messages (s : St) (id : String) :
    (startStatusPolling s id).messages = s.messages := by
  simp [startStatusPolling, stopStatusPolling_messages]

theorem startStatusPolling_nextTag (s : St) (id : String) :
    (startStatusPolling s id).nextTag = s.nextTag + 1 := by
  simp [startStatusPolling, stopStatusPolling_nextTag]

theorem startStatusPolling_subs_token (s : St) (id : String) :
    ∀ q ∈ (startStatusPolling s id).subs, q ∈ s.subs ∨ q.token = s.nextTag := by
  intro q hq
  simp only [startStatusPolling, List.mem_append] at hq
  rcases hq with hq | hq
  · exact Or.inl (stopStatusPolling_subs_sub s q hq)
  · right
    simp only [List.mem_singleton] at hq
    rw [hq, stopStatusPolling_nextTag]

theorem updateSub_token_mem (subs : List PollSub) (tok : Nat) (f : PollSub → PollSub)
    (hf : ∀ q, (f q).token = q.token) :
    ∀ q ∈ updateSub subs tok f, ∃ p ∈ subs, q.token = p.token := by
  intro q hq
  simp only [updateSub, List.mem_map] at hq
  obtain ⟨p, hp, hpq⟩ := hq
  refine ⟨p, hp, ?_⟩
  by_cases h : (p.token == tok) = true
  · rw [← hpq]; simp [h, hf]
  · rw [← hpq]; simp [h]

/-! ## Token freshness: once a subscription token is gone and below the
fresh-tag counter, no later event can resurrect it. -/

theorem step_nextTag_le (s : St) (e : Event) : s.nextTag ≤ (step s e).nextTag := by
  cases e
  all_goals
    simp only [step, selectAgent, selectAgentNext, selectAgentError, pollTick,
      pollNext, pollError, sendMessage, sendMessageNext, sendMessageError,
      startAgent, stopAgent, lifecycleNext, lifecycleError, ngOnDestroy,
      stopStatusPolling_nextTag]
  all_goals repeat' split
  all_goals
    first
      | exact Nat.le_refl _
      | exact Nat.le_succ _
      | (simp only [startStatusPolling_nextTag]; exact Nat.le_succ _)

theorem step_subs_token (s : St) (e : Event) :
    ∀ q ∈ (step s e).subs, (∃ p ∈ s.subs, q.token = p.token) ∨ q.token = s.nextTag := by
  intro q hq
  cases e
  case selectNext tag agent =>
    simp only [step, selectAgentNext] at hq
    split at hq
    · rcases startStatusPolling_subs_token _ _ q hq with h | h
      · exact Or.inl ⟨q, h, rfl⟩
      · exact Or.inr h
    · exact Or.inl ⟨q, hq, rfl⟩
  case destroy =>
    exact Or.inl ⟨q, stopStatusPolling_subs_sub s q hq, rfl⟩
  all_goals
    simp only [step, selectAgent, selectAgentError, pollTick, pollNext, pollError,
      sendMessage, sendMessageNext, sendMessageError, startAgent, stopAgent,
      lifecycleNext, lifecycleError] at hq
  all_goals repeat' split at hq
  all_goals
    first
      | exact Or.inl ⟨q, hq, rfl⟩
      | exact Or.inl ⟨q, (List.mem_filter.mp hq).1, rfl⟩
      | exact Or.inl (updateSub_token_mem s.subs _
          (fun r => { r with inner := some s.nextTag }) (fun _ => rfl) q hq)
      | exact Or.inl (updateSub_token_mem s.subs _
          (fun r => { r with outerDone := true }) (fun _ => rfl) q hq)
      | exact Or.inl (updateSub_token_mem s.subs _
          (fun r => { r with inner := none }) (fun _ => rfl) q hq)

theorem step_tokenDead (s : St) (e : Event) (tok : Nat)
    (h : tokenDead s tok) : tokenDead (step s e) tok := by
  obtain ⟨h1, h2⟩ := h
  refine ⟨?_, lt_of_lt_of_le h2 (step_nextTag_le s e)⟩
  intro q hq
  rcases step_subs_token s e q hq with ⟨p, hp, hqe⟩ | hqe
  · rw [hqe]; exact h1 p hp
  · omega

theorem run_tokenDead (s : St) (tr : List Event) (tok : Nat)
    (h : tokenDead s tok) : tokenDead (run s tr) tok := by
  induction tr generalizing s with
  | nil => exact h
  | cons e tr ih => exact ih (step s e) (step_tokenDead s e tok h)

theorem find?_none_of_dead (s : St) (tok : Nat)
    (h : ∀ p ∈ s.subs, p.token ≠ tok) :
    s.subs.find? (fun p => p.token == tok) = none := by
  rw [List.find?_eq_none]
  intro p hp
  simp [h p hp]

theorem pollNext_dead (s : St) (tok i : Nat) (a : Agent)
    (h : ∀ p ∈ s.subs, p.token ≠ tok) : pollNext s tok i a = s := by
  unfold pollNext
  rw [find?_none_of_dead s tok h]

theorem pollTick_dead (s : St) (tok : Nat)
    (h : ∀ p ∈ s.subs, p.token ≠ tok) : pollTick s tok = s := by
  unfold pollTick
  rw [find?_none_of_dead s tok h]

/-- Applying a successful `selectAgent` response kills the subscription
currently held in `statusSubscription`: `startStatusPolling` unsubscribes it
and allocates a strictly fresh token for the new one. -/
theorem selectAgentNext_kills (s : St) (tag : Nat) (Y : Agent) (tok : Nat)
    (hpend : s.pendingSelects.any (fun p => p.1 == tag) = true)
    (hsub : s.statusSubscription = some tok)
    (hbound : tok < s.nextTag) :
    tokenDead (selectAgentNext s tag Y) tok := by
  unfold selectAgentNext
  simp only [hpend, if_true]
  constructor
  · intro q hq
    simp only [startStatusPolling, stopStatusPolling, hsub, List.mem_append] at hq
    rcases hq with h | h
    · have := List.mem_filter.mp h
      simpa using this.2
    · simp only [List.mem_singleton] at h
      rw [h]
      simp only [stopStatusPolling, hsub]
      omega
  · simp only [startStatusPolling, stopStatusPolling, hsub]
    omega

theorem pollNext_messages (s : St) (tok i : Nat) (a : Agent) :
    (pollNext s tok i a).messages = s.messages := by
  unfold pollNext
  split
  · rfl
  · split
    · dsimp only
      split
      all_goals rfl
    · rfl

/-! ## The claims -/

/-- C2 counterexample: the selection can also change to Y through a late
lifecycle-command response (lines 144/157 assign `this.selectedAgent`
unconditionally), and that path does NOT unsubscribe the poller.  Trace:
select Y, issue `startAgent` on Y (command tag 2 pending), select X (new
subscription token 4 polling X), tick (inner poll request 5 for X in
flight), then Y's late start response arrives — the selection is now Y
while X's poll is still in flight on the live subscription — and the stale
X poll result is then delivered and applied, overwriting Y's snapshot. -/
theorem poll_stale_result_applied_after_command_cex :
    (run initSt [Event.selectCall "Y", Event.selectNext 0 agentY, Event.startCall,
        Event.selectCall "X", Event.selectNext 3 agentX, Event.tick 4,
        Event.commandNext 2 agentY]).selectedAgent = some agentY ∧
    (run initSt [Event.selectCall "Y", Event.selectNext 0 agentY, Event.startCall,
        Event.selectCall "X", Event.selectNext 3 agentX, Event.tick 4,
        Event.commandNext 2 agentY]).subs
      = [{ token := 4, agentId := "X", outerDone := false, inner := some 5 }] ∧
    (run initSt [Event.selectCall "Y", Event.selectNext 0 agentY, Event.startCall,
        Event.selectCall "X", Event.selectNext 3 agentX, Event.tick 4,
        Event.commandNext 2 agentY, Event.pollNext 4 5 agentX]).selectedAgent
      = some agentX ∧
    agentX.id ≠ agentY.id := by decide

/-- C2 (amended): stale-result suppression holds only for selection changes
effected by applying a `selectAgent` response: if a poll for agent X
(subscription `p`, inner request `i`) is in flight and a pending
`selectAgent` response for Y is applied, the stale poll result is
suppressed — delivering it at any later point leaves the state completely
unchanged (the old subscription was unsubscribed by `startStatusPolling`,
which cancels the in-flight inner request, and its token can never be
reallocated).  Selection changes made by other writes to `selectedAgent`
(a late lifecycle-command response, or the template's direct `[(ngModel)]`
write) leave the old subscription live and do not suppress the stale
result. -/
theorem poll_stale_result_suppressed
    (s : St) (p : PollSub) (tag i : Nat) (Y a : Agent) (tr : List Event)
    (hp : p ∈ s.subs)
    (hinner : p.inner = some i)
    (hsub : s.statusSubscription = some p.token)
    (hbound : p.token < s.nextTag)
    (hpend : s.pendingSelects.any (fun q => q.1 == tag) = true)
    (hne : Y.id ≠ p.agentId) :
    step (run (step s (Event.selectNext tag Y)) tr) (Event.pollNext p.token i a)
      = run (step s (Event.selectNext tag Y)) tr := by
  have hdead : tokenDead (step s (Event.selectNext tag Y)) p.token :=
    selectAgentNext_kills s tag Y p.token hpend hsub hbound
  have hdead2 := run_tokenDead _ tr _ hdead
  exact pollNext_dead _ _ _ _ hdead2.1

/-- State with agent X selected, its poll subscription (token 1) holding an
in-flight inner request (tag 2), and a `selectAgent("Y")` request pending
(tag 3). -/
def c2State : St :=
  run initSt [Event.selectCall "X", Event.selectNext 0 agentX,
    Event.tick 1, Event.selectCall "Y"]

/-- Witness for C2 at a concrete reachable state. -/
theorem poll_stale_result_suppressed_witness :
    step (run (step c2State (Event.selectNext 3 agentY)) []) (Event.pollNext 1 2 agentX)
      = run (step c2State (Event.selectNext 3 agentY)) [] :=
  poll_stale_result_suppressed c2State
    { token := 1, agentId := "X", outerDone := false, inner := some 2 }
    3 2 agentY agentX []
    (by decide) (by decide) (by decide) (by decide) (by decide) (by decide)

/-- C9: `ngOnDestroy` (which runs `stopStatusPolling`, the dispose logic) is
idempotent — a second call finds `statusSubscription` null and does nothing. -/
theorem ngOnDestroy_idempotent (s : St) :
    ngOnDestroy (ngOnDestroy s) = ngOnDestroy s := by
  unfold ngOnDestroy
  cases h : s.statusSubscription with
  | none =>
      have h1 : stopStatusPolling s = s := by unfold stopStatusPolling; rw [h]
      rw [h1]
      exact h1
  | some tok =>
      have h1 : stopStatusPolling s =
          { s with subs := s.subs.filter (fun p => p.token ≠ tok)
                   statusSubscription := none } := by
        unfold stopStatusPolling; rw [h]
      rw [h1]
      rfl

/-- C10: when the `selectAgent` gateway fetch fails, the error callback only
reports the failure: the selected snapshot, the transcript, the polling
subscription (field and live set), the fresh-tag counter, the loading flag
and the call log are all left unchanged — in particular the previous
agent's poller is not cancelled and keeps running. -/
theorem selectAgent_failure_atomic (s : St) (tag : Nat) :
    (step s (Event.selectError tag)).selectedAgent = s.selectedAgent ∧
    (step s (Event.selectError tag)).messages = s.messages ∧
    (step s (Event.selectError tag)).statusSubscription = s.statusSubscription ∧
    (step s (Event.selectError tag)).subs = s.subs ∧
    (step s (Event.selectError tag)).nextTag = s.nextTag ∧
    (step s (Event.selectError tag)).isLoading = s.isLoading ∧
    (step s (Event.selectError tag)).callLog = s.callLog := by
  simp only [step, selectAgentError]
  split <;> simp

/-- C1 counterexample: `selectAgent("A")` then `selectAgent("B")`; B's
response arrives first and is applied, then A's late response is applied as
well, overwriting B's state — the superseded selection's result is NOT
discarded. -/
theorem select_superseded_result_applied_cex :
    (run initSt [Event.selectCall "A", Event.selectCall "B",
        Event.selectNext 1 agentB]).selectedAgent = some agentB ∧
    (run initSt [Event.selectCall "A", Event.selectCall "B",
        Event.selectNext 1 agentB, Event.selectNext 0 agentA]).selectedAgent
      = some agentA ∧
    agentA ≠ agentB := by decide

/-- C1 (amended): there is no selection-generation check — every pending
`selectAgent` response is applied in full on arrival (snapshot and
transcript), so the last response to ARRIVE wins, not the most recent call. -/
theorem selectAgentNext_always_applies (s : St) (tag : Nat) (a : Agent)
    (hpend : s.pendingSelects.any (fun p => p.1 == tag) = true) :
    (step s (Event.selectNext tag a)).selectedAgent = some a ∧
    (step s (Event.selectNext tag a)).messages = chatHistoryToMessages a.context := by
  simp only [step, selectAgentNext, hpend, if_true]
  constructor
  · rw [startStatusPolling_selectedAgent]
  · rw [startStatusPolling_messages]

/-- Witness for the amended C1: A's late response is applied even though a
newer selection (B) has already resolved. -/
theorem selectAgentNext_always_applies_witness :
    (step (run initSt [Event.selectCall "A", Event.selectCall "B",
        Event.selectNext 1 agentB]) (Event.selectNext 0 agentA)).selectedAgent
      = some agentA ∧
    (step (run initSt [Event.selectCall "A", Event.selectCall "B",
        Event.selectNext 1 agentB]) (Event.selectNext 0 agentA)).messages
      = chatHistoryToMessages agentA.context :=
  selectAgentNext_always_applies _ 0 agentA (by decide)

/-- C3 counterexample: agent X selected and polling; the first poll errors;
the subscription is terminated (RxJS `error` is terminal), so the two
subsequent interval ticks issue no further `getAgent` request — polling
stopped without any explicit cancellation. -/
theorem poll_error_stops_polling_cex :
    (run initSt [Event.selectCall "X", Event.selectNext 0 agentX, Event.tick 1,
        Event.pollError 1 2, Event.tick 1, Event.tick 1]).callLog
      = [GatewayCall.getAgent "X", GatewayCall.getAgent "X"] ∧
    (run initSt [Event.selectCall "X", Event.selectNext 0 agentX, Event.tick 1,
        Event.pollError 1 2, Event.tick 1, Event.tick 1]).subs = [] := by decide

/-- C3 (amended): a failed poll TERMINATES the polling subscription: the
errored subscription is removed from the live set, and any later tick on it
is a no-op (no further polls are issued until a new selection restarts
polling). -/
theorem poll_error_terminates_polling
    (s : St) (p : PollSub) (i : Nat) (tr : List Event)
    (hfind : s.subs.find? (fun q => q.token == p.token) = some p)
    (hinner : p.inner = some i)
    (hbound : p.token < s.nextTag) :
    (∀ q ∈ (step s (Event.pollError p.token i)).subs, q.token ≠ p.token) ∧
    step (run (step s (Event.pollError p.token i)) tr) (Event.tick p.token)
      = run (step s (Event.pollError p.token i)) tr := by
  have hdead : tokenDead (step s (Event.pollError p.token i)) p.token := by
    constructor
    · intro q hq
      simp only [step, pollError, hfind, hinner, beq_self_eq_true, if_true] at hq
      have := List.mem_filter.mp hq
      simpa using this.2
    · have h1 : (step s (Event.pollError p.token i)).nextTag = s.nextTag := by
        simp only [step, pollError, hfind, hinner, beq_self_eq_true, if_true]
      omega
  refine ⟨hdead.1, ?_⟩
  have hdead2 := run_tokenDead _ tr _ hdead
  exact pollTick_dead _ _ hdead2.1

/-- State with agent X selected and its poll (subscription token 1, inner
request tag 2) in flight. -/
def c3State : St :=
  run initSt [Event.selectCall "X", Event.selectNext 0 agentX, Event.tick 1]

/-- Witness for the amended C3 at a concrete reachable state. -/
theorem poll_error_terminates_polling_witness :
    (∀ q ∈ (step c3State (Event.pollError 1 2)).subs, q.token ≠ 1) ∧
    step (run (step c3State (Event.pollError 1 2)) []) (Event.tick 1)
      = run (step c3State (Event.pollError 1 2)) [] :=
  poll_error_terminates_polling c3State
    { token := 1, agentId := "X", outerDone := false, inner := some 2 }
    2 [] (by decide) (by decide) (by decide)

/-- State with agent `"a1"` (status idle) selected and `"hi"` typed into the
message input. -/
def c4State : St :=
  run initSt [Event.selectCall "a1", Event.selectNext 0 a1idle, Event.typeMessage "hi"]

/-- C4 counterexample: with the selected agent idle (`canSendMessage` is
false), `sendMessage` is NOT a no-op and signals nothing: it still appends
the optimistic user message, sets the loading flag, and issues the gateway
chat call. -/
theorem sendMessage_idle_issues_call_cex :
    canSendMessage c4State = false ∧
    c4State.selectedAgent = some a1idle ∧
    (step c4State (Event.send 100)).callLog
      = c4State.callLog ++ [GatewayCall.chat "a1" "hi"] ∧
    (step c4State (Event.send 100)).messages
      = [{ role := "user", content := "hi", timestamp := 100 }] ∧
    (step c4State (Event.send 100)).isLoading = true := by decide

/-- C4 (amended): `sendMessage` guards only on having a selected agent and a
non-blank trimmed input; it performs no status check and signals no
`InvalidState` — whatever the status, it appends the optimistic message and
issues the gateway chat call.  The status policy {running, completed} exists
only in `canSendMessage`, which the template uses to disable the input. -/
theorem sendMessage_no_status_guard (s : St) (a : Agent) (t : Nat)
    (hsel : s.selectedAgent = some a)
    (htrim : jsTrim s.newMessage ≠ "") :
    (step s (Event.send t)).callLog
      = s.callLog ++ [GatewayCall.chat a.id (jsTrim s.newMessage)] ∧
    (step s (Event.send t)).messages = s.messages ++
      [{ role := "user", content := jsTrim s.newMessage, timestamp := t }] ∧
    canSendMessage s
      = (a.status == AgentStatus.running || a.status == AgentStatus.completed) := by
  have hbeq : (jsTrim s.newMessage == "") = false := beq_eq_false_iff_ne.mpr htrim
  simp [step, sendMessage, canSendMessage, hsel, hbeq]

/-- Witness for the amended C4: the idle agent `"a1"` with input `"hi"`. -/
theorem sendMessage_no_status_guard_witness :
    ((step c4State (Event.send 100)).callLog
      = c4State.callLog ++ [GatewayCall.chat a1idle.id (jsTrim c4State.newMessage)] ∧
    (step c4State (Event.send 100)).messages = c4State.messages ++
      [{ role := "user", content := jsTrim c4State.newMessage, timestamp := 100 }] ∧
    canSendMessage c4State
      = (a1idle.status == AgentStatus.running || a1idle.status == AgentStatus.completed)) :=
  sendMessage_no_status_guard c4State a1idle 100 (by decide) (by decide)

/-- State with agent `"a1"` selected (fetch resolved, polling started). -/
def c5State : St :=
  run initSt [Event.selectCall "a1", Event.selectNext 0 a1idle]

/-- C5 counterexample: two `startAgent` calls with no response in between —
the second command is dispatched to the gateway as well (two remote calls,
two commands outstanding) and nothing is rejected (no snackbar, no
`CommandInFlight`). -/
theorem lifecycle_second_command_dispatched_cex :
    (run c5State [Event.startCall, Event.startCall]).callLog
      = c5State.callLog ++ [GatewayCall.start "a1", GatewayCall.start "a1"] ∧
    (run c5State [Event.startCall, Event.startCall]).pendingCommands
      = [(2, CmdKind.start), (3, CmdKind.start)] ∧
    (run c5State [Event.startCall, Event.startCall]).snackbar = [] := by decide

/-- C5 (amended): there is no in-flight guard: while a lifecycle command is
outstanding, a further `startAgent` or `stopAgent` for the selected agent
also dispatches its remote call (no `CommandInFlight` rejection); each
response is applied as it arrives. -/
theorem lifecycle_no_mutual_exclusion (s : St) (a : Agent)
    (hsel : s.selectedAgent = some a)
    (hpend : s.pendingCommands ≠ []) :
    (step s Event.startCall).callLog = s.callLog ++ [GatewayCall.start a.id] ∧
    (step s Event.stopCall).callLog = s.callLog ++ [GatewayCall.stop a.id] := by
  simp [step, startAgent, stopAgent, hsel]

/-- Witness for the amended C5: one command already outstanding. -/
theorem lifecycle_no_mutual_exclusion_witness :
    ((step (run c5State [Event.startCall]) Event.startCall).callLog
      = (run c5State [Event.startCall]).callLog ++ [GatewayCall.start a1idle.id] ∧
    (step (run c5State [Event.startCall]) Event.stopCall).callLog
      = (run c5State [Event.startCall]).callLog ++ [GatewayCall.stop a1idle.id]) :=
  lifecycle_no_mutual_exclusion (run c5State [Event.startCall]) a1idle
    (by decide) (by decide)

/-- State in which the user sent `"hi"` (timestamp 10) and `"bye"`
(timestamp 20) to the running agent `"a1"`, both chat requests still
unconfirmed, and then re-selected `"a1"` (fetch pending, tag 4). -/
def c6State : St :=
  run initSt [Event.selectCall "a1", Event.selectNext 0 a1run,
    Event.typeMessage "hi", Event.send 10,
    Event.typeMessage "bye", Event.send 20,
    Event.selectCall "a1"]

/-- C6 counterexample: the authoritative transcript (containing the
equivalent of the optimistic `"hi"`) arrives via the pending re-selection.
The displayed transcript indeed holds exactly one copy of `"hi"` — but only
because it is replaced wholesale: the still-unconfirmed optimistic `"bye"`
(its chat request is still pending) is dropped instead of being preserved
after the authoritative messages. -/
theorem optimistic_message_dropped_cex :
    ({ role := "user", content := "bye", timestamp := 20 } : UiMessage)
      ∈ c6State.messages ∧
    (step c6State (Event.selectNext 4 a1auth)).messages
      = [{ role := "user", content := "hi", timestamp := 10 }] ∧
    (step c6State (Event.selectNext 4 a1auth)).pendingChats = [2, 3] ∧
    ({ role := "user", content := "bye", timestamp := 20 } : UiMessage)
      ∉ (step c6State (Event.selectNext 4 a1auth)).messages := by decide

/-- C6 (amended): when an authoritative transcript arrives via a selection
response it replaces the displayed transcript wholesale — a message
occurring once in it is displayed exactly once (no duplication with the
optimistic copy), but unconfirmed local messages are NOT preserved; and a
poll result never touches the displayed transcript at all (the local
messages are kept, the authoritative transcript is ignored). -/
theorem transcript_replaced_wholesale (s : St) (tag : Nat) (a : Agent) (u : UiMessage)
    (hpend : s.pendingSelects.any (fun p => p.1 == tag) = true)
    (hone : (chatHistoryToMessages a.context).count u = 1) :
    (step s (Event.selectNext tag a)).messages = chatHistoryToMessages a.context ∧
    (step s (Event.selectNext tag a)).messages.count u = 1 ∧
    (∀ tok i a', (step s (Event.pollNext tok i a')).messages = s.messages) := by
  have h1 : (step s (Event.selectNext tag a)).messages = chatHistoryToMessages a.context := by
    simp only [step, selectAgentNext, hpend, if_true]
    rw [startStatusPolling_messages]
  exact ⟨h1, by rw [h1]; exact hone, fun tok i a' => pollNext_messages s tok i a'⟩

/-- Witness for the amended C6 at the counterexample's state. -/
theorem transcript_replaced_wholesale_witness :
    ((step c6State (Event.selectNext 4 a1auth)).messages
      = chatHistoryToMessages a1auth.context ∧
    (step c6State (Event.selectNext 4 a1auth)).messages.count
      { role := "user", content := "hi", timestamp := 10 } = 1 ∧
    (∀ tok i a', (step c6State (Event.pollNext tok i a')).messages
      = c6State.messages)) :=
  transcript_replaced_wholesale c6State 4 a1auth
    { role := "user", content := "hi", timestamp := 10 }
    (by decide) (by decide)

/-- C7 counterexample: the first `interval(5000)` emission — hence the first
poll — occurs 5000 ms after subscription, not immediately. -/
theorem poll_first_tick_not_immediate_cex :
    pollTickTime 0 = 5000 ∧ pollTickTime 0 ≠ 0 := by decide

/-- C7 (amended): polls are issued on a fixed 5000 ms cadence whose first
tick fires only after an initial 5000 ms delay. -/
theorem poll_schedule (k : Nat) :
    pollTickTime k = 5000 * (k + 1) ∧
    pollTickTime (k + 1) = pollTickTime k + 5000 ∧
    pollTickTime 0 = 5000 := by
  unfold pollTickTime intervalEmitTime POLL_PERIOD_MS
  refine ⟨rfl, by ring, rfl⟩

/-- State with the running agent `"a1"` selected and `"hi"` typed. -/
def c8State : St :=
  run initSt [Event.selectCall "a1", Event.selectNext 0 a1run, Event.typeMessage "hi"]

/-- C8 counterexample: `sendMessage` mutates the held snapshot in place — no
new snapshot has arrived from the gateway (only a request was dispatched),
yet the held snapshot's `context.chat_history` gained the pushed user
message, so the snapshot held in session state is not immutable. -/
theorem snapshot_mutated_by_sendMessage_cex :
    c8State.selectedAgent = some a1run ∧
    (step c8State (Event.send 10)).selectedAgent
      = some (mkAgent "a1" AgentStatus.running (some { chat_history := some [{ role := "user", content := "hi", timestamp := 10 }] })) ∧
    (step c8State (Event.send 10)).selectedAgent ≠ some a1run := by decide

/-- C8 (amended): snapshots delivered by polling and by lifecycle-command
responses do replace the held snapshot wholesale, but `sendMessage` mutates
the held snapshot's `context.chat_history` in place (preserving its id and
status), so snapshots are not immutable once received. -/
theorem snapshot_replacement_vs_chat_mutation
    (s : St) (p : PollSub) (tok i tag t : Nat) (b resp : Agent)
    (hfind : s.subs.find? (fun q => q.token == tok) = some p)
    (hinner : p.inner = some i)
    (hsel : s.selectedAgent = some b)
    (hcmd : s.pendingCommands.find? (fun q => q.1 == tag) = some (tag, CmdKind.start))
    (htrim : jsTrim s.newMessage ≠ "") :
    (step s (Event.pollNext tok i resp)).selectedAgent = some resp ∧
    (step s (Event.commandNext tag resp)).selectedAgent = some resp ∧
    (step s (Event.send t)).selectedAgent
      = some (pushUserToContext b (jsTrim s.newMessage) t) ∧
    (pushUserToContext b (jsTrim s.newMessage) t).id = b.id ∧
    (pushUserToContext b (jsTrim s.newMessage) t).status = b.status := by
  have hbeq : (jsTrim s.newMessage == "") = false := beq_eq_false_iff_ne.mpr htrim
  refine ⟨?_, ?_, ?_, rfl, rfl⟩
  · simp [step, pollNext, hfind, hinner, hsel]
  · simp [step, lifecycleNext, hcmd]
  · simp [step, sendMessage, hsel, hbeq]

/-- State with `"a1"` selected and polling (inner poll request in flight), a
start command outstanding, and `"hi"` typed. -/
def c8WitnessState : St :=
  run initSt [Event.selectCall "a1", Event.selectNext 0 a1run,
    Event.tick 1, Event.startCall, Event.typeMessage "hi"]

/-- Witness for the amended C8 at a concrete reachable state. -/
theorem snapshot_replacement_vs_chat_mutation_witness :
    ((step c8WitnessState (Event.pollNext 1 2 agentX)).selectedAgent = some agentX ∧
    (step c8WitnessState (Event.commandNext 3 agentX)).selectedAgent = some agentX ∧
    (step c8WitnessState (Event.send 10)).selectedAgent
      = some (pushUserToContext a1run (jsTrim c8WitnessState.newMessage) 10) ∧
    (pushUserToContext a1run (jsTrim c8WitnessState.newMessage) 10).id = a1run.id ∧
    (pushUserToContext a1run (jsTrim c8WitnessState.newMessage) 10).status
      = a1run.status) :=
  snapshot_replacement_vs_chat_mutation c8WitnessState
    { token := 1, agentId := "a1", outerDone := false, inner := some 2 }
    1 2 3 10 a1run agentX
    (by decide) (by decide) (by decide) (by decide) (by decide)

end IHubPT
